import Mathlib

/-!
Shallow embedding of `src/main.rs` from the wasm-doom-tui repository: a host
process that runs a DOOM WASM module in wasmer, translating terminal key
events into guest input and guest-produced RGBA frames into terminal output.

Modelling conventions:
* time is in milliseconds as `Nat` (the Rust code only compares `Instant`s
  and `Duration`s at millisecond/second granularity);
* the `u16` fields of the Rust `DoomApp` struct are `Nat` with the explicit
  saturation / wrap-around of the Rust operation where one exists;
* guest-supplied `i32` values are `Int`, and the Rust `as u64` cast is the
  explicit two's-complement conversion `i32ToU64`;
* host callbacks that call `.unwrap()` on a `Result`/`Option` return
  `Except Panic _`, where `.error` means the Rust code panics (aborting the
  callback and unwinding out of the host process);
* the wasmer linear memory is a `List Nat` of bytes;
* external collaborators (the terminal backend, the `ratatui_image`
  protocol encoder) are modelled at their interface boundary only.
-/

namespace WasmDoomTui

/-- Failure of the wasmer memory accessor (`WasmSlice::new` /
`read_to_vec`): the requested range is not fully inside the region. -/
inductive MemError where
  | memoryAccessError
deriving Repr, DecidableEq

/-- A host-side panic caused by `.unwrap()` in the Rust callbacks.
`unwrapMemory` is a panic on a failed memory read, `unwrapUtf8` a panic on
`String::from_utf8(..).unwrap()` for non-UTF-8 bytes, `unwrapImage` a panic
on `RgbaImage::from_raw(..).unwrap()` for a size mismatch. -/
inductive Panic where
  | unwrapMemory (e : MemError)
  | unwrapUtf8
  | unwrapImage
deriving Repr, DecidableEq

/-- `offset as u64` for a guest-supplied `i32`: a sign-extending cast,
modelled as the two's-complement value modulo `2 ^ 64`. -/
def i32ToU64 (x : Int) : Nat := (x % (2 ^ 64)).toNat

/-- The bounds-checked memory read used by every guest-invoked callback:
`WasmSlice::new(&view, offset, length)` followed by `read_to_vec()`.  The
read fails with a `MemError` iff `offset + length` exceeds the region size,
and otherwise returns exactly the bytes `[offset, offset + length)`. -/
def memRead (mem : List Nat) (offset length : Nat) : Except MemError (List Nat) :=
  if offset + length ≤ mem.length then
    Except.ok ((mem.drop offset).take length)
  else
    Except.error MemError.memoryAccessError

/-- Whether a byte is a UTF-8 continuation byte (`0x80..=0xBF`).  Part of
the model of the validation done by Rust's `String::from_utf8`. -/
def utf8Cont (b : Nat) : Bool := 0x80 ≤ b && b ≤ 0xBF

/-- The UTF-8 validity check performed by Rust's `String::from_utf8`
(standard UTF-8 well-formedness, surrogates and overlong forms excluded). -/
def utf8Valid : List Nat → Bool
  | [] => true
  | b :: rest =>
    if b < 0x80 then utf8Valid rest
    else if 0xC2 ≤ b && b ≤ 0xDF then
      match rest with
      | b1 :: rest2 => utf8Cont b1 && utf8Valid rest2
      | [] => false
    else if b = 0xE0 then
      match rest with
      | b1 :: b2 :: rest2 => (0xA0 ≤ b1 && b1 ≤ 0xBF) && utf8Cont b2 && utf8Valid rest2
      | _ => false
    else if (0xE1 ≤ b && b ≤ 0xEC) || (0xEE ≤ b && b ≤ 0xEF) then
      match rest with
      | b1 :: b2 :: rest2 => utf8Cont b1 && utf8Cont b2 && utf8Valid rest2
      | _ => false
    else if b = 0xED then
      match rest with
      | b1 :: b2 :: rest2 => (0x80 ≤ b1 && b1 ≤ 0x9F) && utf8Cont b2 && utf8Valid rest2
      | _ => false
    else if b = 0xF0 then
      match rest with
      | b1 :: b2 :: b3 :: rest2 =>
        (0x90 ≤ b1 && b1 ≤ 0xBF) && utf8Cont b2 && utf8Cont b3 && utf8Valid rest2
      | _ => false
    else if 0xF1 ≤ b && b ≤ 0xF3 then
      match rest with
      | b1 :: b2 :: b3 :: rest2 =>
        utf8Cont b1 && utf8Cont b2 && utf8Cont b3 && utf8Valid rest2
      | _ => false
    else if b = 0xF4 then
      match rest with
      | b1 :: b2 :: b3 :: rest2 =>
        (0x80 ≤ b1 && b1 ≤ 0x8F) && utf8Cont b2 && utf8Cont b3 && utf8Valid rest2
      | _ => false
    else false

/-- The `ratatui_image` output protocol selection (external collaborator,
modelled as the closed set of variants with the deterministic `next`
cycling order used by `cycle_protocol_type`). -/
inductive ProtocolType where
  | halfblocks
  | sixel
  | kitty
  | iterm2
deriving Repr, DecidableEq

/-- The deterministic cycling order of `ProtocolType::next()`. -/
def ProtocolType.next : ProtocolType → ProtocolType
  | .halfblocks => .sixel
  | .sixel => .kitty
  | .kitty => .iterm2
  | .iterm2 => .halfblocks

/-- The `ratatui_image` `Picker`, at its interface boundary: the font cell
size it targets and the selected output protocol. -/
structure Picker where
  font_size : Nat × Nat
  protocol_type : ProtocolType
deriving Repr, DecidableEq

/-- `Picker::from_fontsize(fs)`: a picker targeting the given cell size. -/
def Picker.from_fontsize (fs : Nat × Nat) : Picker :=
  { font_size := fs, protocol_type := ProtocolType.halfblocks }

/-- The Rust `DoomApp` struct: the single mutable host state visible to
both the main loop and the reentrant WASM callbacks.  `last_log_line`
stores the decoded log bytes, `current_frame` the RGBA bytes handed to the
protocol encoder.  `started_at` and the wasmer `Memory` handle are modelled
externally (time and memory are passed to the callbacks explicitly). -/
structure DoomApp where
  exit : Bool
  last_log_line : Option (List Nat)
  last_log_error : Bool
  image_picker : Picker
  current_frame : Option (List Nat)
  default_font_size : Nat × Nat
  zoom : Nat
  last_second : Nat
  frames_since_last_second : Nat
  fps : Nat
deriving Repr, DecidableEq

/-- `DoomApp::cycle_protocol_type`: select the next output protocol. -/
def DoomApp.cycle_protocol_type (app : DoomApp) : DoomApp :=
  { app with
    image_picker :=
      { app.image_picker with protocol_type := app.image_picker.protocol_type.next } }

/-- `DoomApp::set_zoom`: rebuild the picker from the default font size
divided by the requested zoom, preserving the protocol type.  Note that,
exactly as in the source, the `zoom` field itself is NOT updated. -/
def DoomApp.set_zoom (app : DoomApp) (zoom : Nat) : DoomApp :=
  let protocol_type := app.image_picker.protocol_type
  let new_picker :=
    { Picker.from_fontsize
        (app.default_font_size.1 / zoom, app.default_font_size.2 / zoom) with
      protocol_type := protocol_type }
  { app with image_picker := new_picker }

/-- `DoomApp::increment_zoom`: `set_zoom(self.zoom.saturating_add(1))`,
with `u16` saturation made explicit. -/
def DoomApp.increment_zoom (app : DoomApp) : DoomApp :=
  app.set_zoom (min (app.zoom + 1) 65535)

/-- `DoomApp::decrement_zoom`: `set_zoom(self.zoom.saturating_sub(1).max(1))`
(`Nat` subtraction is already saturating at 0, like `u16::saturating_sub`). -/
def DoomApp.decrement_zoom (app : DoomApp) : DoomApp :=
  app.set_zoom (max (app.zoom - 1) 1)

/-- The `while app.last_second.elapsed() >= ONE_SECOND` catch-up loop of
`draw_screen`: advance the anchor in whole-second (1000 ms) steps, counting
the steps.  Returns the new anchor and the step count `seconds`. -/
def catchUp (anchor seconds now : Nat) : Nat × Nat :=
  if 1000 ≤ now - anchor then
    catchUp (anchor + 1000) (seconds + 1) now
  else
    (anchor, seconds)
termination_by now - anchor
decreasing_by omega

/-- The FPS-accounting fields of `DoomApp` (`last_second`,
`frames_since_last_second`, `fps`), grouped so that the update logic of
`draw_screen` can be stated on its own. -/
structure FpsState where
  last_second : Nat
  frames_since_last_second : Nat
  fps : Nat
deriving Repr, DecidableEq

/-- The FPS update at the end of `draw_screen`, at absolute time `now`
(ms): if less than one second elapsed since the anchor, the frame counter
is incremented (with `u16` wrap-around explicit); otherwise the anchor is
advanced in whole-second steps and `fps` becomes the accumulated count
divided by the number of steps, after which the count resets to 0.  The
frame triggering the else-branch is itself never counted. -/
def fpsUpdate (s : FpsState) (now : Nat) : FpsState :=
  if now - s.last_second < 1000 then
    { s with frames_since_last_second := (s.frames_since_last_second + 1) % 65536 }
  else
    let p := catchUp s.last_second 0 now
    { last_second := p.1
      frames_since_last_second := 0
      fps := s.frames_since_last_second / p.2 }

/-- The `log_string` import callback: bounds-checked read of
`(offset, length)` from linear memory, UTF-8 decode, store as the last log
line with the given severity.  Both the failed read and the failed decode
hit an `.unwrap()` in the source, i.e. panic. -/
def log_string (app : DoomApp) (mem : List Nat) (offset length : Int) (error : Bool) :
    Except Panic DoomApp :=
  match memRead mem (i32ToU64 offset) (i32ToU64 length) with
  | .error e => .error (.unwrapMemory e)
  | .ok vec =>
    if utf8Valid vec then
      .ok { app with last_log_line := some vec, last_log_error := error }
    else
      .error .unwrapUtf8

/-- `log_string_normal` (`js_console_log` / `js_stdout`). -/
def log_string_normal (app : DoomApp) (mem : List Nat) (offset length : Int) :
    Except Panic DoomApp :=
  log_string app mem offset length false

/-- `log_string_error` (`js_stderr`). -/
def log_string_error (app : DoomApp) (mem : List Nat) (offset length : Int) :
    Except Panic DoomApp :=
  log_string app mem offset length true

/-- The `draw_screen` import callback at absolute time `now` (ms):
bounds-checked read of exactly `640 * 400 * 4` bytes at `offset`, image
construction (`RgbaImage::from_raw`, which fails iff the byte count is not
exactly `640 * 400 * 4`), re-encoding into `current_frame`, FPS update, and
terminal redraw.  A failed read or a size mismatch hits an `.unwrap()`,
i.e. panics.  The protocol encoder and the terminal draw are external
collaborators, modelled as succeeding. -/
def draw_screen (app : DoomApp) (mem : List Nat) (offset : Int) (now : Nat) :
    Except Panic DoomApp :=
  match memRead mem (i32ToU64 offset) (640 * 400 * 4) with
  | .error e => .error (.unwrapMemory e)
  | .ok image_data =>
    if image_data.length = 640 * 400 * 4 then
      let app1 := { app with current_frame := some image_data }
      let f := fpsUpdate
        ⟨app1.last_second, app1.frames_since_last_second, app1.fps⟩ now
      .ok { app1 with
              last_second := f.last_second
              frames_since_last_second := f.frames_since_last_second
              fps := f.fps }
    else
      .error .unwrapImage

/-- The crossterm `KeyCode` variants the source distinguishes; `other`
stands for every remaining variant (all mapped to `None` by the `_` arm). -/
inductive KeyCode where
  | enter
  | backspace
  | left
  | right
  | up
  | down
  | tab
  | esc
  | char (c : Char)
  | f (n : Nat)
  | other
deriving Repr, DecidableEq

/-- The crossterm `KeyEventKind` variants: press, release, repeat. -/
inductive KeyEventKind where
  | press
  | release
  | rpt
deriving Repr, DecidableEq

/-- A crossterm key event: a key code plus a press/release/repeat kind. -/
structure KeyEvent where
  code : KeyCode
  kind : KeyEventKind
deriving Repr, DecidableEq

/-- A crossterm terminal event: either a key event or any other event
(resize, mouse, ...), which the source ignores. -/
inductive Event where
  | key (k : KeyEvent)
  | nonKey
deriving Repr, DecidableEq

/-- `key_event_to_doom_event`: press maps to 0, release to 1, and repeat is
suppressed (`None`). -/
def key_event_to_doom_event : KeyEventKind → Option Int
  | .press => some 0
  | .release => some 1
  | .rpt => none

/-- `key_code_to_doom_key`: the static key-code translation table,
including the z/x/c/v → ctrl/alt/shift/space modifier simulation.  The
match arms are in source order (so `'z'`, `'x'`, `'c'`, `'v'` and `' '`
take precedence over the generic `Char` arm). -/
def key_code_to_doom_key : KeyCode → Option Int
  | .enter => some 13
  | .backspace => some 127
  | .char ' ' => some 32
  | .left => some 0xac
  | .right => some 0xae
  | .up => some 0xad
  | .down => some 0xaf
  | .tab => some 9
  | .esc => some 27
  | .char 'z' => some (0x80 + 0x1d)
  | .char 'x' => some (0x80 + 0x38)
  | .char 'c' => some 16
  | .char 'v' => some 32
  | .char ch => some (ch.toNat : Int)
  | .f n => some ((n : Int) + 187)
  | .other => none

/-- One guest `add_browser_event` call: `(event kind, key code)`. -/
structure GuestCall where
  event : Int
  code : Int
deriving Repr, DecidableEq

/-- The body of the `Event::Key` arm of `poll_events`: application-level
keys (`q`/`Q` quit, `p`/`P` protocol cycle, `+` zoom in, `-` zoom out, on
press only) mutate the app state directly; every other key is translated
and forwarded to the guest when both translations are defined.  Returns
the new app state and the guest calls issued (in order). -/
def handle_key (app : DoomApp) (key : KeyEvent) : DoomApp × List GuestCall :=
  match key.code with
  | .char 'q' | .char 'Q' =>
    (if key.kind = .press then { app with exit := true } else app, [])
  | .char 'p' | .char 'P' =>
    (if key.kind = .press then app.cycle_protocol_type else app, [])
  | .char '+' =>
    (if key.kind = .press then app.increment_zoom else app, [])
  | .char '-' =>
    (if key.kind = .press then app.decrement_zoom else app, [])
  | _ =>
    match key_code_to_doom_key key.code, key_event_to_doom_event key.kind with
    | some code, some event => (app, [⟨event, code⟩])
    | _, _ => (app, [])

/-- `DoomGlobalState::poll_events`: drain the pending terminal events in
order (non-key events are ignored), threading the app state and collecting
the guest `add_browser_event` calls. -/
def poll_events (app : DoomApp) (events : List Event) : DoomApp × List GuestCall :=
  events.foldl
    (fun acc ev =>
      match ev with
      | .key k =>
        let r := handle_key acc.1 k
        (r.1, acc.2 ++ r.2)
      | .nonKey => acc)
    (app, [])

/-- The error taxonomy of the host's fallible startup/run steps, following
the spec's names: `moduleError` for malformed module / missing import or
export, `memoryError` for memory creation failure, `terminalError` for
terminal query/draw failures, `runError` for a failure propagated out of
the main loop. -/
inductive AppError where
  | moduleError
  | memoryError
  | terminalError
  | runError
deriving Repr, DecidableEq

/-- The externally visible effects of `main` that the claims are about:
terminal initialization/restore, the one-time guest `main` (init) call,
guest `step` calls and guest `add_browser_event` calls. -/
inductive Effect where
  | termInit
  | termRestore
  | guestInit
  | guestStep
  | guestSubmitInput
deriving Repr, DecidableEq

/-- The outcomes of the fallible startup steps of `main`, in program
order: `Memory::new`, the `Picker` terminal capability query (a missing
font size falls back to `(8, 16)` and counts as success), `Module::new`,
`Instance::new`, and the three typed-export lookups (`main`,
`doom_loop_step`, `add_browser_event`). -/
structure StartupOutcomes where
  memoryNew : Bool
  pickerQuery : Bool
  moduleNew : Bool
  instanceNew : Bool
  hasMain : Bool
  hasStep : Bool
  hasAddEvent : Bool
deriving Repr, DecidableEq

/-- Whether every startup step succeeds, so that control reaches `run`. -/
def startupOk (o : StartupOutcomes) : Bool :=
  o.memoryNew && o.pickerQuery && o.moduleNew && o.instanceNew
    && o.hasMain && o.hasStep && o.hasAddEvent

/-- The control flow of `main`: `ratatui::init()` first, then the fallible
startup steps, each propagating its error with `?` immediately — before
`ratatui::restore()` is ever reached; only when all startup steps succeed
does `run` execute (its effects start with the `guestInit` call and are
abstracted as `runEffects`/`runResult`, since the loop is guest-driven),
and only then is `ratatui::restore()` called, after `run` returns —
whether `run` succeeded or failed.  Returns the effect trace and the
process result. -/
def main (o : StartupOutcomes) (runEffects : List Effect)
    (runResult : Except AppError Unit) : List Effect × Except AppError Unit :=
  if !o.memoryNew then ([.termInit], .error .memoryError)
  else if !o.pickerQuery then ([.termInit], .error .terminalError)
  else if !o.moduleNew then ([.termInit], .error .moduleError)
  else if !o.instanceNew then ([.termInit], .error .moduleError)
  else if !o.hasMain then ([.termInit], .error .moduleError)
  else if !o.hasStep then ([.termInit], .error .moduleError)
  else if !o.hasAddEvent then ([.termInit], .error .moduleError)
  else (Effect.termInit :: runEffects ++ [Effect.termRestore], runResult)

/-- The `DoomApp` value constructed in `main`: no log line, no frame yet,
zoom 1, both time anchors at process start (time 0), counters at 0.  The
picker comes from the terminal capability query (or the `(8, 16)`
fallback) and provides the default font size. -/
def initialApp (picker : Picker) : DoomApp :=
  { exit := false
    last_log_line := none
    last_log_error := false
    image_picker := picker
    current_frame := none
    default_font_size := picker.font_size
    zoom := 1
    last_second := 0
    frames_since_last_second := 0
    fps := 0 }

/-- The draw times of a guest producing exactly one frame every exactly
one second, starting one second after process start: `1000, 2000, ...`
(`n` frames). -/
def oneFpsTimes (n : Nat) : List Nat :=
  (List.range n).map (fun k => 1000 * (k + 1))

/-- Closed form of the catch-up loop: the anchor advances by the number of
whole seconds between it and `now`, and that number is added to the step
counter. -/
theorem catchUp_closed (a s n : Nat) :
    catchUp a s n = (a + 1000 * ((n - a) / 1000), s + (n - a) / 1000) := by
  rw [catchUp]
  by_cases h : 1000 ≤ n - a
  · rw [if_pos h, catchUp_closed (a + 1000) (s + 1) n]
    have h0 : (0 : Nat) < 1000 := by norm_num
    have h1 : (n - a) / 1000 = (n - a - 1000) / 1000 + 1 := Nat.div_eq_sub_div h0 h
    have h2 : n - (a + 1000) = n - a - 1000 := by omega
    rw [h2, Prod.mk.injEq]
    constructor
    · rw [h1]; ring
    · rw [h1]; ring
  · rw [if_neg h]
    have h3 : (n - a) / 1000 = 0 := Nat.div_eq_of_lt (by omega)
    simp [h3]
termination_by n - a
decreasing_by omega

/-- The else-branch of the FPS update, in closed form. -/
theorem fpsUpdate_rollover (s : FpsState) (now : Nat)
    (h : 1000 ≤ now - s.last_second) :
    fpsUpdate s now =
      ⟨s.last_second + 1000 * ((now - s.last_second) / 1000), 0,
        s.frames_since_last_second / ((now - s.last_second) / 1000)⟩ := by
  rw [fpsUpdate, if_neg (by omega), catchUp_closed]
  simp

/-- Under the exact one-frame-per-second schedule, the FPS state after the
first `n` draws: the anchor tracks the draw times, and both the frame
counter and the reported FPS are 0 — each draw lands exactly on the
one-second boundary, takes the rollover branch uncounted, and divides the
(always zero) accumulated count by 1. -/
theorem oneFps_fold (n : Nat) :
    List.foldl fpsUpdate ⟨0, 0, 0⟩ (oneFpsTimes n) = ⟨1000 * n, 0, 0⟩ := by
  induction n with
  | zero => simp [oneFpsTimes]
  | succ m ih =>
    have h1 : oneFpsTimes (m + 1) = oneFpsTimes m ++ [1000 * (m + 1)] := by
      simp [oneFpsTimes, List.range_succ]
    rw [h1, List.foldl_append, ih, List.foldl_cons, List.foldl_nil,
      fpsUpdate_rollover _ _ (by simp; omega)]
    have h2 : 1000 * (m + 1) - 1000 * m = 1000 := by ring_nf; omega
    simp [h2]
    omega

/-- No branch of the key handler writes the `zoom` field: the quit and
protocol branches touch other fields, and the zoom branches call
`set_zoom`, which rebuilds the picker but never stores the new zoom. -/
theorem handle_key_zoom (app : DoomApp) (k : KeyEvent) :
    (handle_key app k).1.zoom = app.zoom := by
  rw [handle_key]
  split
  all_goals try (split <;> rfl)

/-- Draining any event queue leaves the `zoom` field unchanged. -/
theorem poll_events_zoom (events : List Event) (app : DoomApp) :
    (poll_events app events).1.zoom = app.zoom := by
  suffices h : ∀ acc : DoomApp × List GuestCall,
      (events.foldl
        (fun acc ev =>
          match ev with
          | .key k =>
            let r := handle_key acc.1 k
            (r.1, acc.2 ++ r.2)
          | .nonKey => acc) acc).1.zoom = acc.1.zoom by
    exact h (app, [])
  induction events with
  | nil => intro acc; rfl
  | cons e rest ih =>
    intro acc
    cases e with
    | key k => rw [List.foldl_cons, ih]; exact handle_key_zoom acc.1 k
    | nonKey => rw [List.foldl_cons, ih]

/-- A key event of kind `Repeat` produces no guest call: the
application-key branches require a press, and the forwarding branch
requires `key_event_to_doom_event` to be defined, which it is not for
repeats. -/
theorem handle_key_rpt (app : DoomApp) (c : KeyCode) :
    (handle_key app ⟨c, .rpt⟩).2 = [] := by
  rw [handle_key]
  dsimp only
  split
  all_goals try rfl
  cases key_code_to_doom_key c <;> rfl

/-- When every startup step succeeds, `main` reaches `run` and restores the
terminal afterwards, whatever `run` did. -/
theorem main_startup_ok (o : StartupOutcomes) (runEff : List Effect)
    (runRes : Except AppError Unit) (h : startupOk o = true) :
    main o runEff runRes
      = (Effect.termInit :: (runEff ++ [Effect.termRestore]), runRes) := by
  simp only [startupOk, Bool.and_eq_true] at h
  obtain ⟨⟨⟨⟨⟨⟨h1, h2⟩, h3⟩, h4⟩, h5⟩, h6⟩, h7⟩ := h
  simp [main, h1, h2, h3, h4, h5, h6, h7]

/-- When some startup step fails, `main` exits right away: the effect
trace is terminal initialization alone — no restore, no guest call. -/
theorem main_startup_fail (o : StartupOutcomes) (runEff : List Effect)
    (runRes : Except AppError Unit) (h : startupOk o = false) :
    (main o runEff runRes).1 = [Effect.termInit] := by
  rcases o with ⟨m, p, mo, i, e1, e2, e3⟩
  cases m <;> cases p <;> cases mo <;> cases i <;> cases e1 <;> cases e2 <;> cases e3 <;>
    simp_all [main, startupOk]

/-- C1, counterexample: under the exact one-frame-per-second schedule
(the anchor and the first frame one second apart, as the claim's "exactly
one frame arrives every exactly one second" prescribes), the reported FPS
after five draws is 0, not 1: every draw lands exactly on the one-second
boundary, takes the rollover branch without being counted, and divides the
accumulated count — always 0 — by 1. -/
theorem c1_counterexample :
    (List.foldl fpsUpdate ⟨0, 0, 0⟩ [1000, 2000, 3000, 4000, 5000]).fps = 0 ∧
    (List.foldl fpsUpdate ⟨0, 0, 0⟩ [1000, 2000, 3000, 4000, 5000]).fps ≠ 1 := by
  have h : [1000, 2000, 3000, 4000, 5000] = oneFpsTimes 5 := by decide
  rw [h, oneFps_fold]
  exact ⟨rfl, by decide⟩

/-- C1 (amended): under the exact one-frame-per-second schedule the
reported FPS stabilizes at 0 (after every draw it is 0, because the frame
that triggers the one-second rollover is never counted); and when the
anchor is stale by exactly 3 seconds with 30 frames accumulated, the
reported FPS is `30 / 3 = 10`, the anchor advances by exactly 3000 ms, and
the frame counter resets. -/
theorem c1_fps_one_per_second_and_catchup :
    (∀ n : Nat, (List.foldl fpsUpdate ⟨0, 0, 0⟩ (oneFpsTimes n)).fps = 0) ∧
    (∀ a f : Nat, fpsUpdate ⟨a, 30, f⟩ (a + 3000) = ⟨a + 3000, 0, 10⟩) := by
  constructor
  · intro n
    rw [oneFps_fold]
  · intro a f
    rw [fpsUpdate_rollover _ _ (by dsimp only; omega)]
    dsimp only
    have h : a + 3000 - a = 3000 := by omega
    rw [h]

/-- C10 (confirmed): whenever the rollover branch of the FPS update is
taken (at least one whole second since the anchor), the step count
computed by the catch-up loop is at least 1, so the division
`frames_since_last_second / seconds` never divides by zero. -/
theorem c10_catchup_steps_positive (s : FpsState) (now : Nat)
    (h : ¬ now - s.last_second < 1000) :
    0 < (catchUp s.last_second 0 now).2 ∧
    (fpsUpdate s now).fps
      = s.frames_since_last_second / (catchUp s.last_second 0 now).2 := by
  constructor
  · rw [catchUp_closed]
    have h1 : 1 ≤ (now - s.last_second) / 1000 :=
      (Nat.one_le_div_iff (by norm_num)).mpr (by omega)
    simpa using h1
  · rw [fpsUpdate_rollover _ _ (by omega), catchUp_closed]
    simp

/-- C10, witness at the stale-anchor input (anchor 0, draw at 3000 ms). -/
theorem c10_witness :
    0 < (catchUp (FpsState.mk 0 30 0).last_second 0 3000).2 ∧
    (fpsUpdate (FpsState.mk 0 30 0) 3000).fps
      = (FpsState.mk 0 30 0).frames_since_last_second
        / (catchUp (FpsState.mk 0 30 0).last_second 0 3000).2 :=
  c10_catchup_steps_positive (FpsState.mk 0 30 0) 3000 (by decide)

/-- C2, counterexample: a draw-frame call whose `640 * 400 * 4`-byte read
is out of bounds (a 10-byte memory) does not skip the redraw and record an
error log line — it panics: both `WasmSlice::new(..).unwrap()` calls abort
the host, so no state (neither `current_frame` nor the log line) is ever
produced. -/
theorem c2_counterexample :
    draw_screen (initialApp (Picker.from_fontsize (8, 16))) (List.replicate 10 0) 0 0
      = Except.error (Panic.unwrapMemory MemError.memoryAccessError) := by
  rfl

/-- C2 (amended): for every draw-frame invocation whose read fails (the
full `640 * 400 * 4` bytes are not available at the guest-supplied
offset), the callback panics with the memory error — terminating the host
— instead of returning an updated state; consequently `current_frame` and
the log line are never updated by such a call. -/
theorem c2_draw_failed_read_panics (app : DoomApp) (mem : List Nat) (offset : Int)
    (now : Nat) (h : mem.length < i32ToU64 offset + 640 * 400 * 4) :
    draw_screen app mem offset now
      = Except.error (Panic.unwrapMemory MemError.memoryAccessError) := by
  rw [draw_screen, memRead, if_neg (by omega)]

/-- C2, witness: the amended theorem at a concrete out-of-bounds input. -/
theorem c2_witness :
    (List.replicate 10 0).length < i32ToU64 1 + 640 * 400 * 4 ∧
    draw_screen (initialApp (Picker.from_fontsize (8, 16))) (List.replicate 10 0) 1 0
      = Except.error (Panic.unwrapMemory MemError.memoryAccessError) :=
  ⟨by decide, c2_draw_failed_read_panics _ _ _ _ (by decide)⟩

/-- C3 (confirmed): the bounds-checked memory read fails with a
`MemError` whenever `offset + length` exceeds the region size, and on
success returns exactly the requested in-bounds slice — never adjacent
memory; and the reads of both log callbacks and of draw-frame are this
accessor, so an out-of-bounds guest-supplied pair surfaces as the same
`MemError` value there (the read itself is a total function and never
panics; the panic of the enclosing callbacks is their own `.unwrap()`, see
C2/C4). -/
theorem c3_memory_read_contract (mem : List Nat) (offset length : Nat) :
    (mem.length < offset + length →
      memRead mem offset length = Except.error MemError.memoryAccessError) ∧
    (∀ bytes, memRead mem offset length = Except.ok bytes →
      offset + length ≤ mem.length ∧ bytes = (mem.drop offset).take length) ∧
    (∀ (app : DoomApp) (o l : Int) (e : Bool),
      mem.length < i32ToU64 o + i32ToU64 l →
      log_string app mem o l e
        = Except.error (Panic.unwrapMemory MemError.memoryAccessError)) ∧
    (∀ (app : DoomApp) (o : Int) (now : Nat),
      mem.length < i32ToU64 o + 640 * 400 * 4 →
      draw_screen app mem o now
        = Except.error (Panic.unwrapMemory MemError.memoryAccessError)) := by
  refine ⟨fun h => ?_, fun bytes hb => ?_, fun app o l e h => ?_, fun app o now h => ?_⟩
  · rw [memRead, if_neg (by omega)]
  · rw [memRead] at hb
    by_cases hle : offset + length ≤ mem.length
    · rw [if_pos hle] at hb
      exact ⟨hle, (Except.ok.injEq _ _ ▸ hb.symm)⟩
    · rw [if_neg hle] at hb
      exact absurd hb (by simp)
  · rw [log_string, memRead, if_neg (by omega)]
  · rw [draw_screen, memRead, if_neg (by omega)]

/-- C3, witness: the contract at a concrete out-of-bounds input. -/
theorem c3_witness :
    memRead [1, 2, 3] 2 5 = Except.error MemError.memoryAccessError ∧
    log_string (initialApp (Picker.from_fontsize (8, 16))) [1, 2, 3] 2 5 false
      = Except.error (Panic.unwrapMemory MemError.memoryAccessError) :=
  ⟨(c3_memory_read_contract [1, 2, 3] 2 5).1 (by decide),
   (c3_memory_read_contract [1, 2, 3] 2 5).2.2.1
     (initialApp (Picker.from_fontsize (8, 16))) 2 5 false (by decide)⟩

/-- C4, counterexample: a log callback whose in-bounds one-byte region
`[0xFF]` is not valid UTF-8 does not substitute a placeholder and
continue — it panics on `String::from_utf8(..).unwrap()`, producing no
updated state at all. -/
theorem c4_counterexample :
    log_string (initialApp (Picker.from_fontsize (8, 16))) [255] 0 1 true
      = Except.error Panic.unwrapUtf8 := by
  rfl

/-- C4 (amended): for every log-callback invocation whose in-bounds byte
region fails UTF-8 decoding, the host panics via `.unwrap()` (terminating
the session) rather than substituting a placeholder message; the log line
is never updated by such a call. -/
theorem c4_log_decode_failure_panics (app : DoomApp) (mem : List Nat)
    (offset length : Int) (e : Bool) (bytes : List Nat)
    (hread : memRead mem (i32ToU64 offset) (i32ToU64 length) = Except.ok bytes)
    (hbad : utf8Valid bytes = false) :
    log_string app mem offset length e = Except.error Panic.unwrapUtf8 := by
  rw [log_string, hread]
  simp [hbad]

/-- C4, witness: the amended theorem at the concrete region `[0xFF]`. -/
theorem c4_witness :
    log_string (initialApp (Picker.from_fontsize (8, 16))) [255] 0 1 false
      = Except.error Panic.unwrapUtf8 :=
  c4_log_decode_failure_panics _ [255] 0 1 false [255] rfl (by decide)

/-- C5 (code bug): evaluating the code on the claimed failing input.  From
the initial state (zoom 1, default font `(8, 16)`), the key sequence
[press `+`, press `+`, press `-`] leaves `zoom` at 1 and the picker at the
default font size — not the claimed 1→2→3→2 ending at 2 — because
`set_zoom` rebuilds the picker but never assigns `self.zoom`, so
`increment_zoom` always recomputes `1 + 1`.  The last conjunct shows the
claim's true sub-part: the encoder's target cell size at a requested zoom
`z` is the default font cell size divided by `z`. -/
theorem c5_zoom_sequence_evaluation :
    (poll_events (initialApp (Picker.from_fontsize (8, 16)))
        [Event.key ⟨KeyCode.char '+', KeyEventKind.press⟩,
         Event.key ⟨KeyCode.char '+', KeyEventKind.press⟩,
         Event.key ⟨KeyCode.char '-', KeyEventKind.press⟩]).1.zoom = 1 ∧
    (poll_events (initialApp (Picker.from_fontsize (8, 16)))
        [Event.key ⟨KeyCode.char '+', KeyEventKind.press⟩,
         Event.key ⟨KeyCode.char '+', KeyEventKind.press⟩,
         Event.key ⟨KeyCode.char '-', KeyEventKind.press⟩]).1.image_picker.font_size
      = (8, 16) ∧
    (∀ (app : DoomApp) (z : Nat),
      (app.set_zoom z).image_picker.font_size
        = (app.default_font_size.1 / z, app.default_font_size.2 / z)) :=
  ⟨by decide, by decide, fun app z => rfl⟩

/-- C6, counterexample: zoom incrementing is not unbounded above — no key
sequence whatsoever can raise the stored zoom above its initial value 1,
because `set_zoom` never writes the `zoom` field. -/
theorem c6_counterexample :
    ¬ ∃ events : List Event,
        1 < (poll_events (initialApp (Picker.from_fontsize (8, 16))) events).1.zoom := by
  rintro ⟨events, h⟩
  rw [poll_events_zoom] at h
  exact absurd h (by decide)

/-- C6 (amended): for every sequence of events applied from the initial
state the resulting zoom is `≥ 1` — in fact it is always exactly 1,
because no handler branch ever writes the `zoom` field (`set_zoom` omits
the assignment); so decrementing at zoom 1 leaves 1, and incrementing,
rather than being unbounded above, also leaves it at 1. -/
theorem c6_zoom_always_ge_one (p : Picker) (events : List Event) :
    (poll_events (initialApp p) events).1.zoom = 1 ∧
    1 ≤ (poll_events (initialApp p) events).1.zoom := by
  rw [poll_events_zoom]
  exact ⟨rfl, le_refl 1⟩

/-- C7 (confirmed): the input-translation functions are pure total Lean
functions of their argument alone (determinism and totality are by
construction of the embedding); press maps to 0, release to 1, and the
repeat kind maps to suppression, so a repeat key event is never forwarded
to the guest by the event loop. -/
theorem c7_input_translation :
    key_event_to_doom_event KeyEventKind.press = some 0 ∧
    key_event_to_doom_event KeyEventKind.release = some 1 ∧
    key_event_to_doom_event KeyEventKind.rpt = none ∧
    (∀ (c : KeyCode) (app : DoomApp),
      (poll_events app [Event.key ⟨c, KeyEventKind.rpt⟩]).2 = []) := by
  refine ⟨rfl, rfl, rfl, fun c app => ?_⟩
  simp [poll_events, handle_key_rpt]

/-- C8, counterexample: when `Module::new` fails (a malformed guest
module) after the terminal has been initialized, `main` propagates the
error with `?` before ever reaching `ratatui::restore()`: the effect trace
contains no terminal restore. -/
theorem c8_counterexample :
    (main ⟨true, true, false, true, true, true, true⟩ [] (Except.ok ())).2
      = Except.error AppError.moduleError ∧
    Effect.termRestore ∉ (main ⟨true, true, false, true, true, true, true⟩ []
      (Except.ok ())).1 :=
  ⟨rfl, by decide⟩

/-- C8 (amended): the terminal is restored before exit on the normal-quit
path and on error paths during the loop (whenever all startup steps
succeed, `restore` runs after `run` whatever `run`'s result); but on a
startup failure after terminal initialization the process exits without
restoring the terminal — the trace is terminal initialization alone. -/
theorem c8_terminal_restore_amended (o : StartupOutcomes) (runEff : List Effect)
    (runRes : Except AppError Unit) :
    (startupOk o = true →
      (main o runEff runRes).1 = Effect.termInit :: (runEff ++ [Effect.termRestore]) ∧
      Effect.termRestore ∈ (main o runEff runRes).1) ∧
    (startupOk o = false → (main o runEff runRes).1 = [Effect.termInit]) := by
  constructor
  · intro h
    rw [main_startup_ok o runEff runRes h]
    simp
  · intro h
    exact main_startup_fail o runEff runRes h

/-- C8, witness: both branches of the amended theorem at concrete startup
outcomes (all steps succeeding with a one-call run; `Module::new`
failing). -/
theorem c8_witness :
    (main ⟨true, true, true, true, true, true, true⟩ [Effect.guestInit]
        (Except.ok ())).1
      = Effect.termInit :: ([Effect.guestInit] ++ [Effect.termRestore]) ∧
    (main ⟨true, true, false, true, true, true, true⟩ [] (Except.ok ())).1
      = [Effect.termInit] :=
  ⟨((c8_terminal_restore_amended _ _ _).1 (by decide)).1,
   (c8_terminal_restore_amended _ _ _).2 (by decide)⟩

/-- C9 (confirmed): when module compilation and instantiation succeed but
any required export (`main`, `doom_loop_step`, or the
`add_browser_event`/submit-input function) is missing, startup fails with
a `ModuleError` and the effect trace is terminal initialization alone: the
guest init entry point is never called and no main-loop iteration (no
guest step or input submission) executes. -/
theorem c9_missing_export_fails_before_init (o : StartupOutcomes)
    (runEff : List Effect) (runRes : Except AppError Unit)
    (hm : o.memoryNew = true) (hp : o.pickerQuery = true)
    (hmo : o.moduleNew = true) (hi : o.instanceNew = true)
    (hexp : o.hasMain = false ∨ o.hasStep = false ∨ o.hasAddEvent = false) :
    main o runEff runRes = ([Effect.termInit], Except.error AppError.moduleError) ∧
    Effect.guestInit ∉ (main o runEff runRes).1 ∧
    Effect.guestStep ∉ (main o runEff runRes).1 ∧
    Effect.guestSubmitInput ∉ (main o runEff runRes).1 := by
  have hmain : main o runEff runRes
      = ([Effect.termInit], Except.error AppError.moduleError) := by
    rcases o with ⟨m, p, mo, i, e1, e2, e3⟩
    cases e1 <;> cases e2 <;> cases e3 <;> simp_all [main]
  refine ⟨hmain, ?_, ?_, ?_⟩ <;> rw [hmain] <;> decide

/-- C9, witness: a guest module missing only the `add_browser_event`
(submit-input) export. -/
theorem c9_witness :
    main ⟨true, true, true, true, true, true, false⟩ [] (Except.ok ())
      = ([Effect.termInit], Except.error AppError.moduleError) ∧
    Effect.guestInit ∉ (main ⟨true, true, true, true, true, true, false⟩ []
      (Except.ok ())).1 ∧
    Effect.guestStep ∉ (main ⟨true, true, true, true, true, true, false⟩ []
      (Except.ok ())).1 ∧
    Effect.guestSubmitInput ∉ (main ⟨true, true, true, true, true, true, false⟩ []
      (Except.ok ())).1 :=
  c9_missing_export_fails_before_init _ _ _ rfl rfl rfl rfl (Or.inr (Or.inr rfl))

end WasmDoomTui
